import Mathlib

/-!
Shallow embedding of the ext-flashcards core: the SM-2 variant review
algorithm (src/core/algorithm.js), the flashcard manager
(src/core/flashcards.js) and the scheduler (src/core/scheduler.js).

Conventions of the embedding:
* JS numbers are modelled as rationals (`ℚ`); `Math.round` is `jsRound`
  (round half towards +infinity, which is JS semantics for all reals).
* `Date.now()` and `Math.random()` are injected as explicit `now`/`rand`
  parameters; `rand` stands for the value of one `Math.random()` call.
* Absent object fields are `Option.none`.  JS `null` stored in a field is
  also modelled as `none`; the one place the difference is observable
  (the destructuring default for `ease` applies to `undefined` but not to
  `null`, so a first review of a record with a literal-null ease would
  store ease 0 in JS while this model keeps the base ease) is not touched
  by any theorem below, which all constrain `ease` to a present integer
  or only look at intervals.
* `calculateReview` returns `none` exactly on the path where the JS code
  produces a NaN-valued record: a first review (`reviewCount` 0) with a
  difficulty outside the `DEFAULT_INTERVALS` table, where
  `DEFAULT_INTERVALS[difficulty]` is `undefined` and poisons the result.
* Thrown JS exceptions (TypeError from a member access on a null
  `progress`, rejected storage promises) are `Except.error ()`; the
  scheduler operations therefore live in `Except Unit`.
* `Array.prototype.sort` (stable since ES2019) is modelled as the stable
  `List.insertionSort` on the comparator relation `compare a b ≤ 0`.
* The random pick of an unshown flashcard (`Math.floor(Math.random()*n)`,
  always a valid index) is injected as an arbitrary `randPick : ℕ` taken
  modulo the list length.
-/

/-- JS `Math.round`: round half toward positive infinity. -/
def jsRound (x : ℚ) : ℤ := ⌊x + 1/2⌋

/-- REVIEW_DIFFICULTY.HARD from src/utils/constants.js. -/
def HARD : String := "hard"

/-- REVIEW_DIFFICULTY.GOOD from src/utils/constants.js. -/
def GOOD : String := "good"

/-- REVIEW_DIFFICULTY.EASY from src/utils/constants.js. -/
def EASY : String := "easy"

/-- The tunable algorithm parameters (DEFAULT_ALGORITHM_CONFIG keys other
than the descriptive `algorithm` string). -/
structure AlgorithmConfig where
  baseEase : ℚ
  intervalChangeHard : ℚ
  easyBonus : ℚ
  enableLoadBalancer : Bool
  maxIntervalDays : ℚ
  maxLinkContribution : ℚ
deriving DecidableEq, Repr

/-- DEFAULT_ALGORITHM_CONFIG from src/utils/constants.js. -/
def DEFAULT_ALGORITHM_CONFIG : AlgorithmConfig :=
  { baseEase := 250
    intervalChangeHard := 50
    easyBonus := 130
    enableLoadBalancer := true
    maxIntervalDays := 36525
    maxLinkContribution := 50 }

/-- DEFAULT_INTERVALS from src/utils/constants.js; `none` is the JS
`undefined` produced by indexing the table with any other string. -/
def DEFAULT_INTERVALS (difficulty : String) : Option ℚ :=
  if difficulty = HARD then some (1/2)
  else if difficulty = GOOD then some 1
  else if difficulty = EASY then some 4
  else none

/-- A per-flashcard progress record (the values of
`progress.flashcardData`, also the shape produced by
`getFlashcardProgress` for unknown ids). -/
structure FlashcardProgress where
  reviewCount : ℕ
  ease : Option ℚ
  interval : ℚ
  lastReview : Option ℚ
  dueDate : Option ℚ
  difficulty : Option String
deriving DecidableEq, Repr

/-- The all-default record returned by
`FlashcardManager.getFlashcardProgress` when no data exists for an id. -/
def defaultFlashcardProgress : FlashcardProgress :=
  { reviewCount := 0
    ease := none
    interval := 0
    lastReview := none
    dueDate := none
    difficulty := none }

/-- `SpacedRepetitionAlgorithm.applyLoadBalancer`: multiply an interval of
at least one day by a random factor in the 5 percent band;
`rand` is the `Math.random()` draw in `[0, 1)`. -/
def applyLoadBalancer (interval : ℚ) (rand : ℚ) : ℚ :=
  if interval < 1 then interval
  else interval * (1 + (rand * 2 - 1) * (5/100))

/-- The `newInterval` computed by the branch structure of
`calculateReview` before the load balancer and the maximum-interval cap:
a fixed table lookup on a first review, otherwise the switch on the
difficulty (whose `default` keeps the old interval).  `none` is the
`undefined` table miss on a first review. -/
def rawReviewInterval (fc : FlashcardProgress) (difficulty : String)
    (cfg : AlgorithmConfig) : Option ℚ :=
  if fc.reviewCount = 0 then DEFAULT_INTERVALS difficulty
  else if difficulty = HARD then
    some (fc.interval * (cfg.intervalChangeHard / 100))
  else if difficulty = GOOD then
    some (fc.interval * ((fc.ease.getD cfg.baseEase) / 100))
  else if difficulty = EASY then
    some (fc.interval * ((fc.ease.getD cfg.baseEase) / 100) * (cfg.easyBonus / 100))
  else some fc.interval

/-- The `newEase` computed by `calculateReview` (before the final
`Math.round`): unchanged on a first review, decreased with a floor of 130
on hard, unchanged on good, increased by 15 on easy, unchanged on an
unknown difficulty.  The destructuring default replaces an absent ease by
`config.baseEase`. -/
def rawReviewEase (fc : FlashcardProgress) (difficulty : String)
    (cfg : AlgorithmConfig) : ℚ :=
  let ease := fc.ease.getD cfg.baseEase
  if fc.reviewCount = 0 then ease
  else if difficulty = HARD then max 130 (ease - 20)
  else if difficulty = GOOD then ease
  else if difficulty = EASY then ease + 15
  else ease

/-- `SpacedRepetitionAlgorithm.calculateReview`.  The load balancer is
applied when enabled and the interval is at least one day, then the
interval is capped at `maxIntervalDays`; the due date is computed from
the capped but not-yet-rounded interval, and the stored interval is
rounded to two decimal places. -/
def calculateReview (fc : FlashcardProgress) (difficulty : String)
    (cfg : AlgorithmConfig) (now rand : ℚ) : Option FlashcardProgress :=
  (rawReviewInterval fc difficulty cfg).map (fun newInterval0 =>
    let newInterval1 :=
      if cfg.enableLoadBalancer ∧ 1 ≤ newInterval0 then
        applyLoadBalancer newInterval0 rand
      else newInterval0
    let newInterval2 := min newInterval1 cfg.maxIntervalDays
    let dueDate := now + newInterval2 * 24 * 60 * 60 * 1000
    { fc with
        reviewCount := fc.reviewCount + 1
        ease := some ((jsRound (rawReviewEase fc difficulty cfg) : ℤ) : ℚ)
        interval := ((jsRound (newInterval2 * 100) : ℤ) : ℚ) / 100
        lastReview := some now
        dueDate := some dueDate
        difficulty := some difficulty })

/-- `SpacedRepetitionAlgorithm.calculateInitialEase`.  The linked-ease
contribution is taken only when `options.linkedEase` is truthy (present
and nonzero) and `maxLinkContribution` is positive; the result is rounded
and floored at 130. -/
def calculateInitialEase (linkedEase : Option ℚ) (cfg : AlgorithmConfig) : ℤ :=
  let ease : ℚ :=
    match linkedEase with
    | some v =>
      if v ≠ 0 ∧ 0 < cfg.maxLinkContribution then
        cfg.baseEase + (v - cfg.baseEase) * (cfg.maxLinkContribution / 100)
      else cfg.baseEase
    | none => cfg.baseEase
  max 130 (jsRound ease)

/-- `SpacedRepetitionAlgorithm.isDue`: `!flashcardData.dueDate` is truthy
for an absent due date and for the (epoch) due date 0, otherwise the
record is due when `now` has reached the due date. -/
def isDue (now : ℚ) (fc : FlashcardProgress) : Bool :=
  match fc.dueDate with
  | none => true
  | some d => if d = 0 then true else decide (now ≥ d)

/-- The immutable content of a flashcard (src/data/flashcards.json entries). -/
structure Flashcard where
  id : String
  question : String
  answer : String
deriving DecidableEq, Repr

/-- The persisted progress aggregate (`storage.getProgress` shape):
completed ids, the repeat-later queue and the per-id record map (an
association list standing for the JS object). -/
structure Progress where
  completed : List String
  repeatLater : List String
  flashcardData : List (String × FlashcardProgress)
deriving DecidableEq, Repr

/-- `FlashcardManager` state: the loaded catalog and the progress
aggregate, `none` while `loadProgress` has not run (the JS field starts
as `null`). -/
structure FlashcardManager where
  flashcards : List Flashcard
  progress : Option Progress
deriving DecidableEq, Repr

/-- `Scheduler` state: the two dependencies, `null` until
`setDependencies` is called.  The algorithm dependency is represented by
its configuration, the only state of it the scheduler consumes. -/
structure Scheduler where
  flashcardManager : Option FlashcardManager
  algorithm : Option AlgorithmConfig
deriving DecidableEq, Repr

/-- `FlashcardManager.getFlashcardProgress` on a loaded progress state:
the stored record or the all-default record. -/
def getFlashcardProgress (p : Progress) (id : String) : FlashcardProgress :=
  (p.flashcardData.lookup id).getD defaultFlashcardProgress

/-- `FlashcardManager.getFlashcardById`: first catalog entry with the id,
else `null`. -/
def getFlashcardById (m : FlashcardManager) (id : String) : Option Flashcard :=
  m.flashcards.find? (fun fc => fc.id = id)

/-- Write-back of `FlashcardManager.updateFlashcardProgress` on the
record map: replace the binding in place or append a new one (JS object
key order).  The spread-merge equals the new record because
`calculateReview` outputs every field. -/
def setProgressData (l : List (String × FlashcardProgress)) (id : String)
    (v : FlashcardProgress) : List (String × FlashcardProgress) :=
  if (l.lookup id).isSome then
    l.map (fun kv => if kv.1 = id then (id, v) else kv)
  else l ++ [(id, v)]

/-- `FlashcardManager.updateFlashcardProgress` (state effect; the
in-memory mutation happens whether or not the storage write succeeds). -/
def updateFlashcardProgress (p : Progress) (id : String)
    (v : FlashcardProgress) : Progress :=
  { p with flashcardData := setProgressData p.flashcardData id v }

/-- `FlashcardManager.markAsDone`: append the id to `completed` only if
absent. -/
def markAsDone (p : Progress) (id : String) : Progress :=
  if id ∈ p.completed then p
  else { p with completed := p.completed ++ [id] }

/-- `FlashcardManager.removeFromLater`: drop the id from the repeat-later
queue. -/
def removeFromLater (p : Progress) (id : String) : Progress :=
  { p with repeatLater := p.repeatLater.filter (fun fcId => fcId ≠ id) }

/-- The queue update of `FlashcardManager.markForLater` on a loaded
progress state: append the id if not already present.  (The JS guard
re-initialising a missing `repeatLater` array is the identity here: the
aggregate always carries a list, and an empty JS array is truthy.) -/
def markForLaterUpdate (p : Progress) (id : String) : Progress :=
  if id ∈ p.repeatLater then p
  else { p with repeatLater := p.repeatLater ++ [id] }

/-- `FlashcardManager.markForLater`: load the progress state first when
it is `null` (`loadResult` is the outcome of that storage read —
`Except.error` for a rejected promise, `.ok none` for a stored literal
null, which the follow-up guard turns into a logged no-op), then apply
the queue update. -/
def FlashcardManager.markForLater (m : FlashcardManager)
    (loadResult : Except Unit (Option Progress)) (id : String) :
    Except Unit FlashcardManager :=
  match m.progress with
  | some p => .ok { m with progress := some (markForLaterUpdate p id) }
  | none =>
    match loadResult with
    | .error e => .error e
    | .ok none => .ok m
    | .ok (some p) => .ok { m with progress := some (markForLaterUpdate p id) }

/-- The comparator of `Scheduler.getDueFlashcard`: numeric due-date
difference when both due dates are truthy (present and nonzero),
otherwise review-count difference. -/
def dueCompare (a b : FlashcardProgress) : ℚ :=
  match a.dueDate, b.dueDate with
  | some da, some db =>
    if da ≠ 0 ∧ db ≠ 0 then da - db
    else (a.reviewCount : ℚ) - (b.reviewCount : ℚ)
  | _, _ => (a.reviewCount : ℚ) - (b.reviewCount : ℚ)

/-- `Scheduler.getDueFlashcard` given a wired manager: pair every catalog
entry with its progress (a TypeError — `Except.error` — when the
progress state is `null` and the callback runs at all), keep the entries
whose due date is falsy or which `isDue` accepts, stable-sort by the
comparator and return the head. -/
def Scheduler.getDueFlashcard (m : FlashcardManager) (now : ℚ) :
    Except Unit (Option (Flashcard × FlashcardProgress)) :=
  match m.progress with
  | none => if m.flashcards.isEmpty then .ok none else .error ()
  | some p =>
    let withProgress := m.flashcards.map
      (fun fc => (fc, getFlashcardProgress p fc.id))
    let dueFlashcards := (withProgress.filter
        (fun x => (match x.2.dueDate with
          | none => true
          | some d => decide (d = 0)) || isDue now x.2)).insertionSort
      (fun a b => dueCompare a.2 b.2 ≤ 0)
    .ok dueFlashcards.head?

/-- `FlashcardManager.getUnshownFlashcards`: catalog ids not in the
completed set (a TypeError when the progress state is `null`). -/
def getUnshownFlashcards (m : FlashcardManager) :
    Except Unit (List String) :=
  match m.progress with
  | none => .error ()
  | some p =>
    .ok ((m.flashcards.map (fun fc => fc.id)).filter
      (fun id => ¬ id ∈ p.completed))

/-- `Scheduler.getUnshownFlashcard`: a uniformly random unshown id
(`randPick` injects the draw; the modulo mirrors that the JS index is
always in range), looked up in the catalog. -/
def Scheduler.getUnshownFlashcard (m : FlashcardManager) (randPick : ℕ) :
    Except Unit (Option (Flashcard × FlashcardProgress)) := do
  let unshownIds ← getUnshownFlashcards m
  if unshownIds.isEmpty then
    return none
  else
    match unshownIds.get? (randPick % unshownIds.length) with
    | none => return none
    | some selectedId =>
      match getFlashcardById m selectedId with
      | none => return none
      | some fc =>
        match m.progress with
        | none => .error ()
        | some p => return some (fc, getFlashcardProgress p fc.id)

/-- `Scheduler.getLaterFlashcard`: head of the repeat-later queue (a
TypeError when the progress state is `null`). -/
def Scheduler.getLaterFlashcard (m : FlashcardManager) :
    Except Unit (Option (Flashcard × FlashcardProgress)) :=
  match m.progress with
  | none => .error ()
  | some p =>
    match p.repeatLater.head? with
    | none => .ok none
    | some selectedId =>
      match getFlashcardById m selectedId with
      | none => .ok none
      | some fc => .ok (some (fc, getFlashcardProgress p fc.id))

/-- `Scheduler.getNextFlashcard`: null when a dependency is unset,
otherwise the first non-empty tier — due, unshown, repeat-later. -/
def Scheduler.getNextFlashcard (s : Scheduler) (now : ℚ) (randPick : ℕ) :
    Except Unit (Option (Flashcard × FlashcardProgress)) :=
  match s.flashcardManager, s.algorithm with
  | some m, some _ => do
    let dueFlashcard ← Scheduler.getDueFlashcard m now
    match dueFlashcard with
    | some x => return some x
    | none =>
      let unshownFlashcard ← Scheduler.getUnshownFlashcard m randPick
      match unshownFlashcard with
      | some x => return some x
      | none => Scheduler.getLaterFlashcard m
  | _, _ => .ok none

/-- `Scheduler.recordReview`: a silent return when a dependency is unset;
otherwise read the current record (TypeError on a `null` progress
state), run `calculateReview`, write the result back, and on good or
easy also mark done and drop the id from the repeat-later queue.  The
inner `none` is the NaN-record path of `calculateReview`. -/
def Scheduler.recordReview (s : Scheduler) (flashcardId difficulty : String)
    (now rand : ℚ) : Except Unit (Option Scheduler) :=
  match s.flashcardManager, s.algorithm with
  | some m, some cfg =>
    match m.progress with
    | none => .error ()
    | some p =>
      let currentProgress := getFlashcardProgress p flashcardId
      match calculateReview currentProgress difficulty cfg now rand with
      | none => .ok none
      | some updatedProgress =>
        let p1 := updateFlashcardProgress p flashcardId updatedProgress
        let p2 :=
          if difficulty = GOOD ∨ difficulty = EASY then
            removeFromLater (markAsDone p1 flashcardId) flashcardId
          else p1
        .ok (some { s with flashcardManager := some { m with progress := some p2 } })
  | _, _ => .ok (some s)

/-- `Scheduler.markForLater`: a silent return when the manager is unset;
otherwise delegate to the manager (the catch block logs and re-throws,
so a rejection propagates unchanged). -/
def Scheduler.markForLater (s : Scheduler)
    (loadResult : Except Unit (Option Progress)) (flashcardId : String) :
    Except Unit Scheduler :=
  match s.flashcardManager with
  | none => .ok s
  | some m =>
    (m.markForLater loadResult flashcardId).map
      (fun m2 => { s with flashcardManager := some m2 })

/-- The result shape of `Scheduler.getSchedulingStats`. -/
structure SchedulingStats where
  due : ℕ
  new : ℕ
  later : ℕ
  total : ℕ
deriving DecidableEq, Repr

/-- `Scheduler.getSchedulingStats`: zero stats when a dependency is
unset; otherwise count new (never reviewed), due (reviewed and due) and
deferred (in the repeat-later queue) catalog entries, with the catalog
size as total.  A `null` progress state is a TypeError as soon as the
loop body runs. -/
def Scheduler.getSchedulingStats (s : Scheduler) (now : ℚ) :
    Except Unit SchedulingStats :=
  match s.flashcardManager, s.algorithm with
  | some m, some _ =>
    match m.progress with
    | none =>
      if m.flashcards.isEmpty then .ok ⟨0, 0, 0, 0⟩ else .error ()
    | some p =>
      .ok
        { due := m.flashcards.countP (fun fc =>
            decide ((getFlashcardProgress p fc.id).reviewCount ≠ 0) &&
              isDue now (getFlashcardProgress p fc.id))
          new := m.flashcards.countP (fun fc =>
            decide ((getFlashcardProgress p fc.id).reviewCount = 0))
          later := m.flashcards.countP (fun fc => decide (fc.id ∈ p.repeatLater))
          total := m.flashcards.length }
  | _, _ => .ok ⟨0, 0, 0, 0⟩

/-- `Scheduler.hasFlashcardsAvailable`: false when a dependency is unset,
otherwise whether `getNextFlashcard` yields something. -/
def Scheduler.hasFlashcardsAvailable (s : Scheduler) (now : ℚ)
    (randPick : ℕ) : Except Unit Bool :=
  match s.flashcardManager, s.algorithm with
  | some _, some _ => (s.getNextFlashcard now randPick).map Option.isSome
  | _, _ => .ok false

/-- A fixed reference clock (milliseconds since epoch) for the concrete
scenarios. -/
def exNow : ℚ := 1700000000000

/-- Milliseconds in a day. -/
def DAY_MS : ℚ := 86400000

/-- Id of the overdue card in the three-card scenario. -/
def idOverdue : String := "card-overdue"

/-- Id of the future-dated card in the three-card scenario. -/
def idFuture : String := "card-future"

/-- Id of the never-reviewed card in the three-card scenario. -/
def idNew : String := "card-new"

/-- Placeholder question text. -/
def someQuestion : String := "q"

/-- Placeholder answer text. -/
def someAnswer : String := "ans"

/-- The overdue card: reviewed twice, due one day ago. -/
def cardOverdue : Flashcard := ⟨idOverdue, someQuestion, someAnswer⟩

/-- The future-dated card: reviewed once, due one day from now. -/
def cardFuture : Flashcard := ⟨idFuture, someQuestion, someAnswer⟩

/-- The never-reviewed card: no progress data at all. -/
def cardNew : Flashcard := ⟨idNew, someQuestion, someAnswer⟩

/-- Progress of the overdue card (due one day before `exNow`). -/
def progOverdue : FlashcardProgress :=
  { reviewCount := 2
    ease := some 250
    interval := 1
    lastReview := some 1699827200000
    dueDate := some 1699913600000
    difficulty := some GOOD }

/-- Progress of the future-dated card (due one day after `exNow`). -/
def progFuture : FlashcardProgress :=
  { reviewCount := 1
    ease := some 250
    interval := 2
    lastReview := some 1699913600000
    dueDate := some 1700086400000
    difficulty := some GOOD }

/-- The progress aggregate of the three-card scenario. -/
def exProgress : Progress :=
  { completed := []
    repeatLater := []
    flashcardData := [(idOverdue, progOverdue), (idFuture, progFuture)] }

/-- The manager of the three-card scenario. -/
def exManager : FlashcardManager :=
  { flashcards := [cardOverdue, cardFuture, cardNew]
    progress := some exProgress }

/-- The fully wired scheduler of the three-card scenario. -/
def exScheduler : Scheduler :=
  { flashcardManager := some exManager
    algorithm := some DEFAULT_ALGORITHM_CONFIG }

/-- The default configuration with the load balancer disabled. -/
def cfgNoLB : AlgorithmConfig :=
  { DEFAULT_ALGORITHM_CONFIG with enableLoadBalancer := false }

/-- A configuration with an easy bonus below 100 percent (and no load
balancer), admissible for the claim constraints, which only
bound `intervalChangeHard`. -/
def cfgEasyBonus50 : AlgorithmConfig :=
  { DEFAULT_ALGORITHM_CONFIG with easyBonus := 50, enableLoadBalancer := false }

/-- A configuration whose interval cap is not a whole number of
hundredths of a day (and no load balancer). -/
def cfgTinyCap : AlgorithmConfig :=
  { DEFAULT_ALGORITHM_CONFIG with maxIntervalDays := 1/200, enableLoadBalancer := false }

/-- A once-reviewed record with ease 250 and interval 10 days. -/
def fcOnce : FlashcardProgress :=
  { reviewCount := 1
    ease := some 250
    interval := 10
    lastReview := some 1699136000000
    dueDate := some exNow
    difficulty := some GOOD }

/-- A once-reviewed record with interval 1000 days, far over the tiny
cap of `cfgTinyCap`. -/
def fcLong : FlashcardProgress :=
  { fcOnce with interval := 1000 }

/-- A wired scheduler whose manager never loaded its progress state
(`this.progress` still `null`) over a one-card catalog. -/
def sUnloaded : Scheduler :=
  { flashcardManager := some { flashcards := [cardOverdue], progress := none }
    algorithm := some DEFAULT_ALGORITHM_CONFIG }

/-- A difficulty string outside the review vocabulary. -/
def OTHER : String := "again"

/-- The initial-ease computation as claim C8 words it: the linked-ease
formula whenever `linkedEase` is given (present) and
`maxLinkContribution` is positive, the base ease otherwise, floored at
130 and rounded.  Kept separate from `calculateInitialEase`, which
translates the source. -/
def calculateInitialEaseClaim (linkedEase : Option ℚ) (cfg : AlgorithmConfig) : ℤ :=
  let ease : ℚ :=
    match linkedEase with
    | some v =>
      if 0 < cfg.maxLinkContribution then
        cfg.baseEase + (v - cfg.baseEase) * (cfg.maxLinkContribution / 100)
      else cfg.baseEase
    | none => cfg.baseEase
  max 130 (jsRound ease)

theorem jsRound_mono {a b : ℚ} (h : a ≤ b) : jsRound a ≤ jsRound b :=
  Int.floor_mono (by linarith)

theorem jsRound_intCast (k : ℤ) : jsRound ((k : ℚ)) = k := by
  rw [jsRound, add_comm, Int.floor_add_int]
  norm_num

theorem round2_mono {a b : ℚ} (h : a ≤ b) :
    ((jsRound (a * 100) : ℤ) : ℚ) / 100 ≤ ((jsRound (b * 100) : ℤ) : ℚ) / 100 := by
  have h1 := jsRound_mono (by linarith : a * 100 ≤ b * 100)
  have h2 : ((jsRound (a * 100) : ℤ) : ℚ) ≤ ((jsRound (b * 100) : ℤ) : ℚ) := by
    exact_mod_cast h1
  linarith

theorem round2_hundredths (k : ℤ) :
    ((jsRound (((k : ℚ) / 100) * 100) : ℤ) : ℚ) / 100 = (k : ℚ) / 100 := by
  have h : ((k : ℚ) / 100) * 100 = (k : ℚ) := by field_simp
  rw [h, jsRound_intCast]

/-- C3 counterexample: with the default configuration (load balancer
enabled) and the random draw 0.9, a first review with outcome Good
stores interval 1.04, not the fixed lookup value 1, so the interval is
not the fixed lookup regardless of config. -/
theorem C3_counterexample :
    (calculateReview defaultFlashcardProgress GOOD DEFAULT_ALGORITHM_CONFIG exNow
        (9/10)).map (fun r => r.interval) = some (26/25) ∧ ((26 : ℚ)/25 ≠ 1) := by
  constructor
  · simp [calculateReview, rawReviewInterval, defaultFlashcardProgress,
      DEFAULT_INTERVALS, GOOD, HARD, EASY, DEFAULT_ALGORITHM_CONFIG,
      applyLoadBalancer, jsRound]
    norm_num [min_def]
  · norm_num

/-- C3 (amended): on a first review the pre-jitter, pre-cap interval is
the fixed lookup by outcome (0.5 / 1 / 4 days) for every configuration;
the stored interval equals that lookup provided the load balancer is
disabled and the cap is at least 4 days — with the balancer enabled the
Good and Easy first intervals are jittered, and a smaller cap truncates
them. -/
theorem C3_first_review_intervals (fc : FlashcardProgress)
    (cfg : AlgorithmConfig) (now rand : ℚ) (h0 : fc.reviewCount = 0)
    (hlb : cfg.enableLoadBalancer = false) (hmax : 4 ≤ cfg.maxIntervalDays) :
    (calculateReview fc HARD cfg now rand).map (fun r => r.interval) = some (1/2) ∧
    (calculateReview fc GOOD cfg now rand).map (fun r => r.interval) = some 1 ∧
    (calculateReview fc EASY cfg now rand).map (fun r => r.interval) = some 4 ∧
    (∀ d : String, ∀ cfg2 : AlgorithmConfig,
      rawReviewInterval fc d cfg2 = DEFAULT_INTERVALS d) := by
  have hH : (1:ℚ)/2 ≤ cfg.maxIntervalDays := by linarith
  have hG : (1:ℚ) ≤ cfg.maxIntervalDays := by linarith
  refine ⟨?_, ?_, ?_, ?_⟩
  · simp [calculateReview, rawReviewInterval, h0, DEFAULT_INTERVALS, HARD,
      GOOD, EASY, hlb, jsRound]
    have hm : (2:ℚ)⁻¹ ⊓ cfg.maxIntervalDays = 2⁻¹ := min_eq_left (by linarith)
    rw [hm]
    norm_num
  · simp [calculateReview, rawReviewInterval, h0, DEFAULT_INTERVALS, HARD,
      GOOD, EASY, hlb, jsRound]
    have hm : (1:ℚ) ⊓ cfg.maxIntervalDays = 1 := min_eq_left hG
    rw [hm]
    norm_num
  · simp [calculateReview, rawReviewInterval, h0, DEFAULT_INTERVALS, HARD,
      GOOD, EASY, hlb, jsRound]
    have hm : (4:ℚ) ⊓ cfg.maxIntervalDays = 4 := min_eq_left hmax
    rw [hm]
    norm_num
  · intro d cfg2
    simp [rawReviewInterval, h0]

/-- C3 witness: the amended statement instantiated at the all-default
record with the load balancer disabled, and its fixed-lookup conjunct
instantiated at the Good outcome and the default configuration. -/
theorem C3_first_review_intervals_witness :
    (calculateReview defaultFlashcardProgress HARD cfgNoLB 0 0).map
        (fun r => r.interval) = some (1/2) ∧
    (calculateReview defaultFlashcardProgress GOOD cfgNoLB 0 0).map
        (fun r => r.interval) = some 1 ∧
    (calculateReview defaultFlashcardProgress EASY cfgNoLB 0 0).map
        (fun r => r.interval) = some 4 ∧
    rawReviewInterval defaultFlashcardProgress GOOD DEFAULT_ALGORITHM_CONFIG =
      DEFAULT_INTERVALS GOOD :=
  let h := C3_first_review_intervals defaultFlashcardProgress cfgNoLB 0 0 rfl rfl
    (by norm_num [cfgNoLB, DEFAULT_ALGORITHM_CONFIG])
  ⟨h.1, h.2.1, h.2.2.1, h.2.2.2 GOOD DEFAULT_ALGORITHM_CONFIG⟩

theorem calculateReview_result (fc : FlashcardProgress) (d : String)
    (cfg : AlgorithmConfig) (now rand v : ℚ)
    (hraw : rawReviewInterval fc d cfg = some v) :
    calculateReview fc d cfg now rand = some
      { fc with
          reviewCount := fc.reviewCount + 1
          ease := some ((jsRound (rawReviewEase fc d cfg) : ℤ) : ℚ)
          interval := ((jsRound ((min
            (if cfg.enableLoadBalancer ∧ 1 ≤ v then applyLoadBalancer v rand else v)
            cfg.maxIntervalDays) * 100) : ℤ) : ℚ) / 100
          lastReview := some now
          dueDate := some (now + (min
            (if cfg.enableLoadBalancer ∧ 1 ≤ v then applyLoadBalancer v rand else v)
            cfg.maxIntervalDays) * 24 * 60 * 60 * 1000)
          difficulty := some d } := by
  rw [calculateReview, hraw]
  rfl

/-- C5 counterexample: with a cap of 0.005 days the two-decimal rounding
of the stored interval lands on 0.01, strictly above the cap, so the
result interval is not always at most `maxIntervalDays`. -/
theorem C5_counterexample :
    (calculateReview fcLong GOOD cfgTinyCap exNow 0).map (fun r => r.interval) =
      some (1/100) ∧
    ¬ ((1 : ℚ)/100 ≤ cfgTinyCap.maxIntervalDays) := by
  constructor
  · simp [calculateReview, rawReviewInterval, fcLong, fcOnce, cfgTinyCap,
      DEFAULT_ALGORITHM_CONFIG, GOOD, HARD, EASY, jsRound]
    norm_num [min_def]
  · norm_num [cfgTinyCap, DEFAULT_ALGORITHM_CONFIG]

/-- C5 (amended): whenever `maxIntervalDays` is a whole number of
hundredths of a day (in particular the integral default 36525), the
interval stored by `calculateReview` is at most `maxIntervalDays`, for
every input record, difficulty, random draw and input interval —
including input intervals already above the cap.  (For a cap that is not
a multiple of 0.01, the final rounding can exceed it by less than
0.005.) -/
theorem C5_interval_capped (fc : FlashcardProgress) (d : String)
    (cfg : AlgorithmConfig) (now rand : ℚ) (r : FlashcardProgress) (k : ℤ)
    (hk : cfg.maxIntervalDays = (k : ℚ) / 100)
    (h : calculateReview fc d cfg now rand = some r) :
    r.interval ≤ cfg.maxIntervalDays := by
  rcases hraw : rawReviewInterval fc d cfg with _ | v
  · rw [calculateReview, hraw] at h
    simp at h
  · rw [calculateReview_result fc d cfg now rand v hraw] at h
    have hr := Option.some.inj h
    have hint : r.interval = ((jsRound ((min
        (if cfg.enableLoadBalancer ∧ 1 ≤ v then applyLoadBalancer v rand else v)
        cfg.maxIntervalDays) * 100) : ℤ) : ℚ) / 100 := by
      rw [← hr]
    rw [hint, hk]
    calc ((jsRound ((min
        (if cfg.enableLoadBalancer ∧ 1 ≤ v then applyLoadBalancer v rand else v)
        ((k : ℚ) / 100)) * 100) : ℤ) : ℚ) / 100
        ≤ ((jsRound (((k : ℚ) / 100) * 100) : ℤ) : ℚ) / 100 :=
          round2_mono (min_le_right _ _)
      _ = (k : ℚ) / 100 := round2_hundredths k

/-- C5 witness: the capped-interval theorem applied to the 1000-day
record under a cap of 0.02 days (a whole number of hundredths): the
stored interval 0.02 obeys the cap. -/
theorem C5_interval_capped_witness :
    ((⟨2, some 250, 2/100, some exNow, some 1700001728000,
        some GOOD⟩ : FlashcardProgress)).interval ≤
      ({ DEFAULT_ALGORITHM_CONFIG with
        maxIntervalDays := (2 : ℚ) / 100 } : AlgorithmConfig).maxIntervalDays :=
  C5_interval_capped fcLong GOOD
    { DEFAULT_ALGORITHM_CONFIG with maxIntervalDays := (2 : ℚ) / 100 }
    exNow (1/2) _ 2 rfl
    (by
      simp [calculateReview, rawReviewInterval, rawReviewEase, fcLong, fcOnce,
        DEFAULT_ALGORITHM_CONFIG, GOOD, HARD, EASY, jsRound,
        applyLoadBalancer, exNow]
      norm_num [min_def])

/-- C6: on a subsequent review (reviewCount > 0) with current integer
ease e, the stored ease is max(130, e − 20) after Hard (the floor is the
constant 130; the configuration has no floor key to override it), e + 15
after Easy, and e unchanged after Good. -/
theorem C6_ease_updates (fc : FlashcardProgress) (cfg : AlgorithmConfig)
    (now rand : ℚ) (e : ℤ) (hrc : fc.reviewCount ≠ 0)
    (he : fc.ease = some ((e : ℤ) : ℚ)) :
    (calculateReview fc HARD cfg now rand).map (fun r => r.ease) =
      some (some ((max 130 (e - 20) : ℤ) : ℚ)) ∧
    (calculateReview fc EASY cfg now rand).map (fun r => r.ease) =
      some (some ((e + 15 : ℤ) : ℚ)) ∧
    (calculateReview fc GOOD cfg now rand).map (fun r => r.ease) =
      some (some ((e : ℤ) : ℚ)) := by
  have hcast : ((max 130 (e - 20) : ℤ) : ℚ) = max (130 : ℚ) ((e : ℚ) - 20) := by
    push_cast
    ring_nf
  refine ⟨?_, ?_, ?_⟩
  · simp [calculateReview, rawReviewInterval, rawReviewEase, hrc, he, HARD,
      GOOD, EASY, hcast, jsRound_intCast]
    rw [← hcast, jsRound_intCast]
  · simp [calculateReview, rawReviewInterval, rawReviewEase, hrc, he, HARD,
      GOOD, EASY]
    rw [show ((e : ℚ) + 15) = (((e + 15 : ℤ) : ℤ) : ℚ) by push_cast; ring,
      jsRound_intCast]
  · simp [calculateReview, rawReviewInterval, rawReviewEase, hrc, he, HARD,
      GOOD, EASY, jsRound_intCast]

/-- C6 witness: the ease updates at a record with ease 250: 230 after
Hard, 265 after Easy, 250 after Good. -/
theorem C6_ease_updates_witness :
    (calculateReview fcOnce HARD DEFAULT_ALGORITHM_CONFIG exNow (1/2)).map
        (fun r => r.ease) = some (some ((max 130 (250 - 20) : ℤ) : ℚ)) ∧
    (calculateReview fcOnce EASY DEFAULT_ALGORITHM_CONFIG exNow (1/2)).map
        (fun r => r.ease) = some (some ((250 + 15 : ℤ) : ℚ)) ∧
    (calculateReview fcOnce GOOD DEFAULT_ALGORITHM_CONFIG exNow (1/2)).map
        (fun r => r.ease) = some (some ((250 : ℤ) : ℚ)) :=
  C6_ease_updates fcOnce DEFAULT_ALGORITHM_CONFIG exNow (1/2) 250
    (by simp [fcOnce]) (by simp [fcOnce])

/-- C10: `calculateReview` is total over arbitrary difficulty strings on
subsequent reviews: for any difficulty outside hard/good/easy, the
default branch of the switch keeps the pre-jitter, pre-cap interval equal to
the input interval, and the result increments reviewCount, keeps the
(integer) ease, and sets lastReview and dueDate. -/
theorem C10_unknown_difficulty (fc : FlashcardProgress)
    (cfg : AlgorithmConfig) (now rand : ℚ) (e : ℤ) (d : String)
    (r : FlashcardProgress)
    (hrc : fc.reviewCount ≠ 0) (he : fc.ease = some ((e : ℤ) : ℚ))
    (h1 : d ≠ HARD) (h2 : d ≠ GOOD) (h3 : d ≠ EASY)
    (h : calculateReview fc d cfg now rand = some r) :
    rawReviewInterval fc d cfg = some fc.interval ∧
    r.reviewCount = fc.reviewCount + 1 ∧
    r.ease = some ((e : ℤ) : ℚ) ∧
    r.lastReview = some now ∧
    (r.dueDate).isSome = true := by
  have hraw : rawReviewInterval fc d cfg = some fc.interval := by
    simp [rawReviewInterval, hrc, h1, h2, h3]
  rw [calculateReview_result fc d cfg now rand fc.interval hraw] at h
  obtain rfl := Option.some.inj h
  refine ⟨hraw, rfl, ?_, rfl, rfl⟩
  show some ((jsRound (rawReviewEase fc d cfg) : ℤ) : ℚ) = some ((e : ℤ) : ℚ)
  simp [rawReviewEase, hrc, he, h1, h2, h3, jsRound_intCast]

/-- C10 witness: the unknown difficulty string applied to the
once-reviewed record keeps interval 10 and ease 250 while bumping the
review count. -/
theorem C10_unknown_difficulty_witness :
    rawReviewInterval fcOnce OTHER DEFAULT_ALGORITHM_CONFIG = some fcOnce.interval ∧
    ((⟨2, some 250, 10, some exNow, some 1700864000000,
        some OTHER⟩ : FlashcardProgress)).reviewCount = fcOnce.reviewCount + 1 ∧
    ((⟨2, some 250, 10, some exNow, some 1700864000000,
        some OTHER⟩ : FlashcardProgress)).ease = some ((250 : ℤ) : ℚ) ∧
    ((⟨2, some 250, 10, some exNow, some 1700864000000,
        some OTHER⟩ : FlashcardProgress)).lastReview = some exNow ∧
    (((⟨2, some 250, 10, some exNow, some 1700864000000,
        some OTHER⟩ : FlashcardProgress)).dueDate).isSome = true :=
  C10_unknown_difficulty fcOnce DEFAULT_ALGORITHM_CONFIG exNow (1/2) 250 OTHER _
    (by simp [fcOnce]) (by norm_num [fcOnce])
    (by simp [OTHER, HARD]) (by simp [OTHER, GOOD]) (by simp [OTHER, EASY])
    (by
      simp [calculateReview, rawReviewInterval, rawReviewEase, fcOnce,
        DEFAULT_ALGORITHM_CONFIG, OTHER, HARD, GOOD, EASY, jsRound,
        applyLoadBalancer, exNow]
      norm_num [min_def])

/-- C4 counterexample: with intervalChangeHard 50 (within the bound of the
claim) but easyBonus 50, the Easy output interval 12.5 is strictly below
the Good output interval 25 for the same state, so the ordering the
claim asserts for every config fails. -/
theorem C4_counterexample :
    (calculateReview fcOnce GOOD cfgEasyBonus50 exNow 0).map
        (fun r => r.interval) = some 25 ∧
    (calculateReview fcOnce EASY cfgEasyBonus50 exNow 0).map
        (fun r => r.interval) = some (25/2) ∧
    ¬ ((25 : ℚ) ≤ 25/2) := by
  refine ⟨?_, ?_, by norm_num⟩
  · simp [calculateReview, rawReviewInterval, fcOnce, cfgEasyBonus50,
      DEFAULT_ALGORITHM_CONFIG, GOOD, HARD, EASY, jsRound]
    norm_num [min_def]
  · simp [calculateReview, rawReviewInterval, fcOnce, cfgEasyBonus50,
      DEFAULT_ALGORITHM_CONFIG, GOOD, HARD, EASY, jsRound]
    norm_num [min_def]

/-- C4 (amended): for a subsequent review with the load balancer
disabled, intervalChangeHard at most 100, easyBonus at least 100 (the
documented minimum in the code), ease at least the 130 floor, and a
nonnegative input interval that is a whole number of hundredths of a day
(as the algorithm always stores), the Hard output interval is at most
the input interval and the output intervals are ordered
Hard ≤ Good ≤ Easy. -/
theorem C4_hard_shrinks_and_ordered (fc : FlashcardProgress)
    (cfg : AlgorithmConfig) (now rand : ℚ) (e : ℚ) (k : ℤ)
    (rh rg re : FlashcardProgress)
    (hrc : fc.reviewCount ≠ 0) (he : fc.ease = some e) (he130 : 130 ≤ e)
    (hi0 : 0 ≤ fc.interval) (hik : fc.interval = (k : ℚ) / 100)
    (hich : cfg.intervalChangeHard ≤ 100) (heb : 100 ≤ cfg.easyBonus)
    (hlb : cfg.enableLoadBalancer = false)
    (hH : calculateReview fc HARD cfg now rand = some rh)
    (hG : calculateReview fc GOOD cfg now rand = some rg)
    (hE : calculateReview fc EASY cfg now rand = some re) :
    rh.interval ≤ fc.interval ∧
    rh.interval ≤ rg.interval ∧ rg.interval ≤ re.interval := by
  have hrawH : rawReviewInterval fc HARD cfg =
      some (fc.interval * (cfg.intervalChangeHard / 100)) := by
    simp [rawReviewInterval, hrc, HARD, GOOD, EASY]
  have hrawG : rawReviewInterval fc GOOD cfg =
      some (fc.interval * (e / 100)) := by
    simp [rawReviewInterval, hrc, he, HARD, GOOD, EASY]
  have hrawE : rawReviewInterval fc EASY cfg =
      some (fc.interval * (e / 100) * (cfg.easyBonus / 100)) := by
    simp [rawReviewInterval, hrc, he, HARD, GOOD, EASY]
  have hHG : fc.interval * (cfg.intervalChangeHard / 100) ≤
      fc.interval * (e / 100) := by
    have : cfg.intervalChangeHard / 100 ≤ e / 100 := by linarith
    exact mul_le_mul_of_nonneg_left this hi0
  have hHI : fc.interval * (cfg.intervalChangeHard / 100) ≤ fc.interval := by
    have h1 : fc.interval * (cfg.intervalChangeHard / 100) ≤
        fc.interval * (100 / 100) := by
      have : cfg.intervalChangeHard / 100 ≤ (100 : ℚ) / 100 := by linarith
      exact mul_le_mul_of_nonneg_left this hi0
    linarith
  have hGE : fc.interval * (e / 100) ≤
      fc.interval * (e / 100) * (cfg.easyBonus / 100) := by
    have hg0 : 0 ≤ fc.interval * (e / 100) := by
      apply mul_nonneg hi0
      linarith
    have hb1 : (1 : ℚ) ≤ cfg.easyBonus / 100 := by linarith
    exact le_mul_of_one_le_right hg0 hb1
  rw [calculateReview_result fc HARD cfg now rand _ hrawH] at hH
  rw [calculateReview_result fc GOOD cfg now rand _ hrawG] at hG
  rw [calculateReview_result fc EASY cfg now rand _ hrawE] at hE
  obtain rfl := Option.some.inj hH
  obtain rfl := Option.some.inj hG
  obtain rfl := Option.some.inj hE
  refine ⟨?_, ?_, ?_⟩
  · show ((jsRound ((min
      (if cfg.enableLoadBalancer ∧ 1 ≤ fc.interval * (cfg.intervalChangeHard / 100)
        then applyLoadBalancer (fc.interval * (cfg.intervalChangeHard / 100)) rand
        else fc.interval * (cfg.intervalChangeHard / 100))
      cfg.maxIntervalDays) * 100) : ℤ) : ℚ) / 100 ≤ fc.interval
    rw [hlb]
    simp only [Bool.false_eq_true, false_and, if_false]
    calc ((jsRound ((min (fc.interval * (cfg.intervalChangeHard / 100))
        cfg.maxIntervalDays) * 100) : ℤ) : ℚ) / 100
        ≤ ((jsRound (fc.interval * 100) : ℤ) : ℚ) / 100 :=
          round2_mono (le_trans (min_le_left _ _) hHI)
      _ = fc.interval := by rw [hik]; exact round2_hundredths k
  · show ((jsRound ((min _ cfg.maxIntervalDays) * 100) : ℤ) : ℚ) / 100 ≤
      ((jsRound ((min _ cfg.maxIntervalDays) * 100) : ℤ) : ℚ) / 100
    rw [hlb]
    simp only [Bool.false_eq_true, false_and, if_false]
    exact round2_mono (min_le_min hHG le_rfl)
  · show ((jsRound ((min _ cfg.maxIntervalDays) * 100) : ℤ) : ℚ) / 100 ≤
      ((jsRound ((min _ cfg.maxIntervalDays) * 100) : ℤ) : ℚ) / 100
    rw [hlb]
    simp only [Bool.false_eq_true, false_and, if_false]
    exact round2_mono (min_le_min hGE le_rfl)

/-- C4 witness: the amended ordering at the once-reviewed record (ease
250, interval 10) under the default configuration with the load balancer
disabled: the result intervals are 5 (Hard), 25 (Good) and 32.5
(Easy). -/
theorem C4_hard_shrinks_and_ordered_witness :
    ((⟨2, some 230, 5, some exNow, some 1700432000000,
        some HARD⟩ : FlashcardProgress)).interval ≤ fcOnce.interval ∧
    ((⟨2, some 230, 5, some exNow, some 1700432000000,
        some HARD⟩ : FlashcardProgress)).interval ≤
      ((⟨2, some 250, 25, some exNow, some 1702160000000,
        some GOOD⟩ : FlashcardProgress)).interval ∧
    ((⟨2, some 250, 25, some exNow, some 1702160000000,
        some GOOD⟩ : FlashcardProgress)).interval ≤
      ((⟨2, some 265, 65/2, some exNow, some 1702808000000,
        some EASY⟩ : FlashcardProgress)).interval :=
  C4_hard_shrinks_and_ordered fcOnce cfgNoLB exNow (1/2) 250 1000 _ _ _
    (by simp [fcOnce]) (by norm_num [fcOnce]) (by norm_num)
    (by norm_num [fcOnce]) (by norm_num [fcOnce])
    (by norm_num [cfgNoLB, DEFAULT_ALGORITHM_CONFIG])
    (by norm_num [cfgNoLB, DEFAULT_ALGORITHM_CONFIG]) rfl
    (by
      simp [calculateReview, rawReviewInterval, rawReviewEase, fcOnce,
        cfgNoLB, DEFAULT_ALGORITHM_CONFIG, HARD, GOOD, EASY, jsRound, exNow]
      norm_num [min_def])
    (by
      simp [calculateReview, rawReviewInterval, rawReviewEase, fcOnce,
        cfgNoLB, DEFAULT_ALGORITHM_CONFIG, HARD, GOOD, EASY, jsRound, exNow]
      norm_num [min_def])
    (by
      simp [calculateReview, rawReviewInterval, rawReviewEase, fcOnce,
        cfgNoLB, DEFAULT_ALGORITHM_CONFIG, HARD, GOOD, EASY, jsRound, exNow]
      norm_num [min_def])

/-- C8 counterexample: a given linked ease of 0 is falsy in JS, so the
code takes the base-ease branch and returns 250 under the default
configuration, while the formula of the claim (any given linkedEase with
positive maxLinkContribution) yields max(130, round(125)) = 130. -/
theorem C8_counterexample :
    calculateInitialEase (some 0) DEFAULT_ALGORITHM_CONFIG = 250 ∧
    calculateInitialEaseClaim (some 0) DEFAULT_ALGORITHM_CONFIG = 130 ∧
    (250 : ℤ) ≠ 130 := by
  refine ⟨?_, ?_, by decide⟩
  · simp [calculateInitialEase, DEFAULT_ALGORITHM_CONFIG, jsRound]
    norm_num
  · simp [calculateInitialEaseClaim, DEFAULT_ALGORITHM_CONFIG, jsRound]
    norm_num

/-- C8 (amended): the linked-ease formula applies when linkedEase is
given, *nonzero* (JS truthiness) and maxLinkContribution is positive;
in every other case (absent, zero, or non-positive contribution) the
result is the base ease; both branches are rounded and floored at 130,
so the result is always at least 130. -/
theorem C8_initial_ease (v : ℚ) (linkedEase : Option ℚ)
    (cfg : AlgorithmConfig) :
    (v ≠ 0 → 0 < cfg.maxLinkContribution →
      calculateInitialEase (some v) cfg =
        max 130 (jsRound (cfg.baseEase +
          (v - cfg.baseEase) * (cfg.maxLinkContribution / 100)))) ∧
    (¬ 0 < cfg.maxLinkContribution →
      calculateInitialEase (some v) cfg = max 130 (jsRound cfg.baseEase)) ∧
    calculateInitialEase (some 0) cfg = max 130 (jsRound cfg.baseEase) ∧
    calculateInitialEase none cfg = max 130 (jsRound cfg.baseEase) ∧
    130 ≤ calculateInitialEase linkedEase cfg := by
  refine ⟨?_, ?_, ?_, ?_, ?_⟩
  · intro hv hm
    simp [calculateInitialEase, hv, hm]
  · intro hm
    simp [calculateInitialEase, hm]
  · simp [calculateInitialEase]
  · simp [calculateInitialEase]
  · rcases linkedEase with _ | w
    · simp [calculateInitialEase]
    · simp only [calculateInitialEase]
      exact le_max_left _ _

/-- C8 witness: a nonzero linked ease of 300 under the default
configuration takes the weighted branch. -/
theorem C8_initial_ease_witness :
    calculateInitialEase (some 300) DEFAULT_ALGORITHM_CONFIG =
      max 130 (jsRound (DEFAULT_ALGORITHM_CONFIG.baseEase +
        (300 - DEFAULT_ALGORITHM_CONFIG.baseEase) *
          (DEFAULT_ALGORITHM_CONFIG.maxLinkContribution / 100))) :=
  (C8_initial_ease 300 none DEFAULT_ALGORITHM_CONFIG).1 (by norm_num)
    (by norm_num [DEFAULT_ALGORITHM_CONFIG])

/-- C9: markForLater is idempotent — a second call (or a call with the
id already present) leaves the repeat-later queue containing the id
exactly once, and a fresh id is appended at the tail; the scheduler
operation on a loaded progress state applies exactly this queue
update. -/
theorem C9_markForLater_idempotent (p : Progress) (id : String)
    (hdup : p.repeatLater.count id ≤ 1) :
    markForLaterUpdate (markForLaterUpdate p id) id = markForLaterUpdate p id ∧
    (id ∉ p.repeatLater →
      (markForLaterUpdate p id).repeatLater = p.repeatLater ++ [id]) ∧
    (markForLaterUpdate p id).repeatLater.count id = 1 ∧
    (∀ (cards : List Flashcard) (alg : Option AlgorithmConfig)
        (loadResult : Except Unit (Option Progress)),
      Scheduler.markForLater ⟨some ⟨cards, some p⟩, alg⟩ loadResult id =
        .ok ⟨some ⟨cards, some (markForLaterUpdate p id)⟩, alg⟩) := by
  refine ⟨?_, ?_, ?_, ?_⟩
  · by_cases h : id ∈ p.repeatLater
    · simp [markForLaterUpdate, h]
    · simp [markForLaterUpdate, h]
  · intro h
    simp [markForLaterUpdate, h]
  · by_cases h : id ∈ p.repeatLater
    · have h1 : 1 ≤ p.repeatLater.count id := List.one_le_count_iff.mpr h
      simp only [markForLaterUpdate, h, if_true]
      omega
    · have h0 : p.repeatLater.count id = 0 := List.count_eq_zero.mpr h
      simp [markForLaterUpdate, h, List.count_append, h0]
  · intro cards alg loadResult
    rfl

/-- C9 witness: the queue update on the empty queue of the three-card
scenario, with the scheduler-level conjunct instantiated at a one-card
catalog and a successful load. -/
theorem C9_markForLater_idempotent_witness :
    markForLaterUpdate (markForLaterUpdate exProgress idOverdue) idOverdue =
      markForLaterUpdate exProgress idOverdue ∧
    (markForLaterUpdate exProgress idOverdue).repeatLater =
      exProgress.repeatLater ++ [idOverdue] ∧
    (markForLaterUpdate exProgress idOverdue).repeatLater.count idOverdue = 1 ∧
    Scheduler.markForLater ⟨some ⟨[cardOverdue], some exProgress⟩,
        some DEFAULT_ALGORITHM_CONFIG⟩ (.ok none) idOverdue =
      .ok ⟨some ⟨[cardOverdue], some (markForLaterUpdate exProgress idOverdue)⟩,
        some DEFAULT_ALGORITHM_CONFIG⟩ :=
  let h := C9_markForLater_idempotent exProgress idOverdue (by simp [exProgress])
  ⟨h.1, h.2.1 (by simp [exProgress]), h.2.2.1,
    h.2.2.2 [cardOverdue] (some DEFAULT_ALGORITHM_CONFIG) (.ok none)⟩

/-- C2 counterexample: two scheduler operations that do throw.  With both
dependencies wired but the progress state never loaded, getNextFlashcard
hits a TypeError (member access on a null `this.progress`) instead of
returning null; and markForLater re-throws a rejected storage load
instead of reporting by return value. -/
theorem C2_counterexample :
    Scheduler.getNextFlashcard sUnloaded exNow 0 = .error () ∧
    Scheduler.markForLater ⟨some ⟨[], none⟩, some DEFAULT_ALGORITHM_CONFIG⟩
      (.error ()) idOverdue = .error () := by
  constructor
  · rfl
  · rfl

/-- C2 (amended): the null-dependency guards do hold — when the manager
or the algorithm reference is unset, getNextFlashcard returns null,
recordReview is a no-op, markForLater (which checks only the manager) is
a no-op, getSchedulingStats returns zero stats and
hasFlashcardsAvailable returns false, none of them throwing.  (The
universal no-throw guarantee of the claim fails only on a wired scheduler
whose progress state is unavailable, per the counterexample.) -/
theorem C2_null_dependency_guards (s : Scheduler) (now rand : ℚ)
    (randPick : ℕ) (id d : String)
    (loadResult : Except Unit (Option Progress))
    (h : s.flashcardManager = none ∨ s.algorithm = none) :
    Scheduler.getNextFlashcard s now randPick = .ok none ∧
    Scheduler.recordReview s id d now rand = .ok (some s) ∧
    (s.flashcardManager = none →
      Scheduler.markForLater s loadResult id = .ok s) ∧
    Scheduler.getSchedulingStats s now = .ok ⟨0, 0, 0, 0⟩ ∧
    Scheduler.hasFlashcardsAvailable s now randPick = .ok false := by
  obtain ⟨fm, alg⟩ := s
  rcases h with h | h
  · have hfm : fm = none := h
    subst hfm
    refine ⟨rfl, rfl, fun _ => rfl, rfl, rfl⟩
  · have halg : alg = none := h
    subst halg
    cases fm with
    | none => refine ⟨rfl, rfl, fun _ => rfl, rfl, rfl⟩
    | some m =>
      refine ⟨rfl, rfl, fun h2 => ?_, rfl, rfl⟩
      exact absurd h2 (by simp)

/-- C2 witness: the guards at the completely unwired scheduler. -/
theorem C2_null_dependency_guards_witness :
    Scheduler.getNextFlashcard ⟨none, none⟩ exNow 0 = .ok none ∧
    Scheduler.recordReview ⟨none, none⟩ idOverdue GOOD exNow 0 = .ok (some ⟨none, none⟩) ∧
    Scheduler.markForLater ⟨none, none⟩ (.ok none) idOverdue = .ok ⟨none, none⟩ ∧
    Scheduler.getSchedulingStats ⟨none, none⟩ exNow = .ok ⟨0, 0, 0, 0⟩ ∧
    Scheduler.hasFlashcardsAvailable ⟨none, none⟩ exNow 0 = .ok false :=
  let h := C2_null_dependency_guards ⟨none, none⟩ exNow 0 0 idOverdue GOOD (.ok none)
    (Or.inl rfl)
  ⟨h.1, h.2.1, h.2.2.1 rfl, h.2.2.2.1, h.2.2.2.2⟩

/-- C7: recordReview writes the updated record; on Good or Easy it also
adds the id to the completed set only if absent and filters the id out
of the repeat-later queue; on Hard it writes the record but leaves
completed and repeatLater untouched. -/
theorem C7_recordReview_bookkeeping (cards : List Flashcard) (p : Progress)
    (cfg : AlgorithmConfig) (id d : String) (now rand : ℚ)
    (u : FlashcardProgress)
    (hcalc : calculateReview (getFlashcardProgress p id) d cfg now rand = some u) :
    (d = GOOD ∨ d = EASY →
      Scheduler.recordReview ⟨some ⟨cards, some p⟩, some cfg⟩ id d now rand =
        .ok (some ⟨some ⟨cards, some
          { completed :=
              if id ∈ p.completed then p.completed else p.completed ++ [id]
            repeatLater := p.repeatLater.filter (fun fcId => fcId ≠ id)
            flashcardData := setProgressData p.flashcardData id u }⟩,
          some cfg⟩)) ∧
    (d = HARD →
      Scheduler.recordReview ⟨some ⟨cards, some p⟩, some cfg⟩ id d now rand =
        .ok (some ⟨some ⟨cards, some
          { completed := p.completed
            repeatLater := p.repeatLater
            flashcardData := setProgressData p.flashcardData id u }⟩,
          some cfg⟩)) := by
  constructor
  · intro hd
    have hde : (d = GOOD ∨ d = EASY) := hd
    simp only [Scheduler.recordReview, hcalc, hde, if_true]
    by_cases hc : id ∈ p.completed
    · simp [updateFlashcardProgress, markAsDone, removeFromLater, hc]
    · simp [updateFlashcardProgress, markAsDone, removeFromLater, hc]
  · intro hd
    subst hd
    have hne : ¬ (HARD = GOOD ∨ HARD = EASY) := by
      simp [HARD, GOOD, EASY]
    simp only [Scheduler.recordReview, hcalc, hne, if_false]
    simp [updateFlashcardProgress]

/-- C7 witness: recording a Good review of the overdue card writes the
recomputed record (interval 2.5 days), marks it done and clears it from
the repeat-later queue. -/
theorem C7_recordReview_bookkeeping_witness :
    Scheduler.recordReview ⟨some ⟨[cardOverdue], some exProgress⟩, some cfgNoLB⟩
        idOverdue GOOD exNow 0 =
      .ok (some ⟨some ⟨[cardOverdue], some
        { completed := if idOverdue ∈ exProgress.completed then
            exProgress.completed else exProgress.completed ++ [idOverdue]
          repeatLater := exProgress.repeatLater.filter (fun fcId => fcId ≠ idOverdue)
          flashcardData := setProgressData exProgress.flashcardData idOverdue
            ⟨3, some 250, 5/2, some exNow, some (exNow + 216000000), some GOOD⟩ }⟩,
        some cfgNoLB⟩) :=
  (C7_recordReview_bookkeeping [cardOverdue] exProgress cfgNoLB idOverdue GOOD
      exNow 0 ⟨3, some 250, 5/2, some exNow, some (exNow + 216000000), some GOOD⟩
      (by
        have hg : getFlashcardProgress exProgress idOverdue = progOverdue := by
          simp [getFlashcardProgress, exProgress, List.lookup]
        rw [hg]
        simp [calculateReview, rawReviewInterval, rawReviewEase, progOverdue,
          cfgNoLB, DEFAULT_ALGORITHM_CONFIG, GOOD, HARD, EASY, jsRound]
        norm_num [min_def, exNow])).1 (Or.inl rfl)

theorem exScheduler_getNext :
    Scheduler.getNextFlashcard exScheduler exNow 0 =
      .ok (some (cardNew, defaultFlashcardProgress)) := by
  have hdue : Scheduler.getDueFlashcard exManager exNow =
      .ok (some (cardNew, defaultFlashcardProgress)) := by
    simp [Scheduler.getDueFlashcard, exManager, exProgress, getFlashcardProgress,
      List.lookup, cardOverdue, cardFuture, cardNew, idOverdue, idFuture, idNew,
      progOverdue, progFuture, defaultFlashcardProgress, isDue, dueCompare,
      List.insertionSort, List.orderedInsert, exNow, List.filter]
    norm_num
  rw [Scheduler.getNextFlashcard]
  show (do
    let dueFlashcard ← Scheduler.getDueFlashcard exManager exNow
    match dueFlashcard with
    | some x => pure (some x)
    | none => do
      let unshownFlashcard ← Scheduler.getUnshownFlashcard exManager 0
      match unshownFlashcard with
      | some x => pure (some x)
      | none => Scheduler.getLaterFlashcard exManager) =
    Except.ok (some (cardNew, defaultFlashcardProgress))
  rw [hdue]
  rfl

/-- C1 counterexample: in the three-card scenario (one overdue, one
future-dated, one never reviewed) getNextFlashcard returns the
never-reviewed card, not the overdue one — with a due date absent on one
side the comparator falls back to fewer reviews first, and the
count 0 of the never-reviewed card beats count 2 of the overdue card. -/
theorem C1_counterexample :
    Scheduler.getNextFlashcard exScheduler exNow 0 =
      .ok (some (cardNew, defaultFlashcardProgress)) ∧
    cardNew.id ≠ cardOverdue.id := by
  refine ⟨exScheduler_getNext, ?_⟩
  simp [cardNew, cardOverdue, idNew, idOverdue]

/-- C1 (amended): in the three-card scenario getNextFlashcard picks from
the due tier the never-reviewed card (the future-dated card is filtered
out; with a due date absent the tie-break by fewer reviewCount prefers
the never-reviewed card over the overdue one); the due-tier comparator
compares due dates numerically when both are present (and nonzero), and
otherwise falls back to the review-count difference. -/
theorem C1_due_tier_selection :
    Scheduler.getNextFlashcard exScheduler exNow 0 =
      .ok (some (cardNew, defaultFlashcardProgress)) ∧
    (∀ a b : FlashcardProgress, ∀ da db : ℚ, a.dueDate = some da →
      b.dueDate = some db → da ≠ 0 → db ≠ 0 → dueCompare a b = da - db) ∧
    (∀ a b : FlashcardProgress, a.dueDate = none ∨ b.dueDate = none →
      dueCompare a b = (a.reviewCount : ℚ) - (b.reviewCount : ℚ)) := by
  refine ⟨exScheduler_getNext, ?_, ?_⟩
  · intro a b da db ha hb hda hdb
    simp [dueCompare, ha, hb, hda, hdb]
  · intro a b h
    rcases h with h | h
    · simp [dueCompare, h]
    · rcases ha : a.dueDate with _ | da
      · simp [dueCompare, ha, h]
      · simp [dueCompare, ha, h]

/-- C1 witness: the comparator instantiated at the overdue and
future-dated records (both due dates present and nonzero). -/
theorem C1_due_tier_selection_witness :
    dueCompare progOverdue progFuture =
      (1699913600000 : ℚ) - 1700086400000 :=
  C1_due_tier_selection.2.1 progOverdue progFuture 1699913600000 1700086400000
    rfl rfl (by norm_num) (by norm_num)
